import Mathlib

/-!
Verification development for the task-orchestration core of the analysis
service (api_service/task_manager.py, api_service/task_processor.py,
api_service/gemini_analyzer.py, api_service/api_routes.py).

Python strings are embedded as `String` (operated on through `List Char`),
Python exceptions as `Except PyErr`, the filesystem as an explicit
environment, and the external collaborators (object storage, LLM client)
as oracle fields of an environment record.  Machine integers do not appear:
Python ints are unbounded, embedded as `Nat` where the source only ever
holds non-negative values.
-/

namespace TaskCore

/-- Description of a raised Python exception, as seen by handlers via
`str(e)`. -/
inductive PyErr where
  | valueError : String → PyErr
  | attributeError : String → PyErr
  | typeError : String → PyErr
  | ioError : String → PyErr
  deriving DecidableEq, Repr

/-- The `str(e)` rendering of an exception, used when an error handler
records the description of a caught exception. -/
def PyErr.describe : PyErr → String
  | .valueError m => m
  | .attributeError m => m
  | .typeError m => m
  | .ioError m => m

/-! ## Python string primitives

Python `str` values are modelled as `List Char` (wrapped back into `String`
at the interfaces).  The helpers below embed the exact library semantics
used by the source: `str.strip(c)`, `str.split(c)`, `c.join`,
`str.endswith`, `os.path.basename`, `os.path.splitext`.
-/

/-- Python `s.strip(c)` for a single strip character: removes every leading
and trailing occurrence of `c`. -/
def stripChar (c : Char) (l : List Char) : List Char :=
  (((l.dropWhile (· = c)).reverse.dropWhile (· = c)).reverse)

/-- Python `s.split(c)` for a single separator character: splits at every
occurrence of `c`, keeping empty segments, and returns `[""]` on the empty
string. -/
def splitChar (c : Char) : List Char → List (List Char)
  | [] => [[]]
  | ch :: rest =>
    let r := splitChar c rest
    if ch = c then
      [] :: r
    else
      match r with
      | seg :: segs => (ch :: seg) :: segs
      | [] => [[ch]]

/-- Python `c.join(segments)`: interleaves the separator character between
segments. -/
def joinChar (c : Char) : List (List Char) → List Char
  | [] => []
  | [seg] => seg
  | seg :: segs => seg ++ c :: joinChar c segs

/-- Python `s.endswith(suffix)`. -/
def pyEndsWith (s suffix : String) : Bool :=
  suffix.toList.isSuffixOf s.toList

/-- Python `os.path.basename` (POSIX): the part after the last slash. -/
def pyBasename (s : String) : String :=
  String.mk ((s.toList.reverse.takeWhile (· ≠ '/')).reverse)

/-- Python `os.path.splitext(name)[0]` for a plain file name (no slash):
drops the extension starting at the last dot, unless every character before
that dot is itself a dot (so a leading-dot name keeps its dots). -/
def pySplitextBase (s : String) : String :=
  let l := s.toList
  let revAfter := l.reverse.takeWhile (· ≠ '.')
  if revAfter.length = l.length then
    s
  else
    let pre := l.take (l.length - revAfter.length - 1)
    if pre.any (· ≠ '.') then String.mk pre else s

/-- Truthiness of a Python `Optional[str]`: `None` and the empty string are
falsy. -/
def pyTruthyOptStr : Option String → Bool
  | none => false
  | some s => !(s == "")

/-! ## Data model: TaskStatus and Task (task_manager.py lines 13-67) -/

/-- The `TaskStatus` enum (task_manager.py lines 13-20). -/
inductive TaskStatus where
  | pending
  | downloading
  | analyzing
  | merging
  | completed
  | failed
  deriving DecidableEq, Repr

/-- The `.value` string of each enum member. -/
def TaskStatus.value : TaskStatus → String
  | .pending => "pending"
  | .downloading => "downloading"
  | .analyzing => "analyzing"
  | .merging => "merging"
  | .completed => "completed"
  | .failed => "failed"

/-- Python `TaskStatus(s)` without the exception: `none` models the
`ValueError` raised on an unrecognized status string. -/
def TaskStatus.ofValue (s : String) : Option TaskStatus :=
  if s = "pending" then some .pending
  else if s = "downloading" then some .downloading
  else if s = "analyzing" then some .analyzing
  else if s = "merging" then some .merging
  else if s = "completed" then some .completed
  else if s = "failed" then some .failed
  else none

/-- The `Task` object (task_manager.py lines 23-37).  This mirrors exactly
the attributes assigned in `Task.__init__`; in particular there is no
`force_reanalyze` and no `name` attribute. -/
structure Task where
  task_id : String
  cos_path : String
  prompt : String
  status : TaskStatus
  created_at : String
  updated_at : String
  progress : Nat
  message : String
  error : Option String
  result_file : Option String
  cache_used : Bool
  deriving DecidableEq, Repr

/-- `Task.__init__(task_id, cos_path, prompt)`: fresh PENDING task.  The
`datetime.now().isoformat()` timestamp is supplied by the caller as `now`. -/
def Task.init (task_id cos_path prompt now : String) : Task :=
  { task_id := task_id
    cos_path := cos_path
    prompt := prompt
    status := .pending
    created_at := now
    updated_at := now
    progress := 0
    message := ""
    error := none
    result_file := none
    cache_used := false }

/-- One serialized task record of the persisted registry document, as
produced by `Task.to_dict` and consumed by `Task.from_dict`.  The `status`
field is the raw persisted string. -/
structure TaskRecord where
  task_id : String
  cos_path : String
  prompt : String
  status : String
  created_at : String
  updated_at : String
  progress : Nat
  message : String
  error : Option String
  result_file : Option String
  cache_used : Bool
  deriving DecidableEq, Repr

/-- `Task.to_dict` (task_manager.py lines 39-53). -/
def Task.to_dict (t : Task) : TaskRecord :=
  { task_id := t.task_id
    cos_path := t.cos_path
    prompt := t.prompt
    status := t.status.value
    created_at := t.created_at
    updated_at := t.updated_at
    progress := t.progress
    message := t.message
    error := t.error
    result_file := t.result_file
    cache_used := t.cache_used }

/-- `Task.from_dict` (task_manager.py lines 55-67).  `TaskStatus(data[...])`
raises `ValueError` on an unrecognized status value; that exception is
modelled with `Except`. -/
def Task.from_dict (r : TaskRecord) : Except PyErr Task :=
  match TaskStatus.ofValue r.status with
  | none => .error (.valueError (String.append r.status " is not a valid TaskStatus"))
  | some st =>
      .ok { task_id := r.task_id
            cos_path := r.cos_path
            prompt := r.prompt
            status := st
            created_at := r.created_at
            updated_at := r.updated_at
            progress := r.progress
            message := r.message
            error := r.error
            result_file := r.result_file
            cache_used := r.cache_used }

/-! ## The in-memory registry (`TaskManager.tasks`)

`self.tasks` is a Python dict keyed by task id; embedded as an insertion
ordered association list, since `_save_tasks` serializes the values in
order. -/

/-- The registry contents: `self.tasks` as an ordered association list. -/
abbrev Registry := List (String × Task)

/-- Python `self.tasks.get(task_id)`. -/
def findTask (reg : Registry) (task_id : String) : Option Task :=
  match reg.find? (fun p => p.1 == task_id) with
  | some p => some p.2
  | none => none

/-- Python `self.tasks[task_id] = task`: replace in place when the key is
present, append otherwise. -/
def setTask (reg : Registry) (task_id : String) (t : Task) : Registry :=
  match reg with
  | [] => [(task_id, t)]
  | (k, v) :: rest =>
      if k = task_id then (k, t) :: rest
      else (k, v) :: setTask rest task_id t

/-! ## Persistence (`_save_tasks`, `_load_tasks`) -/

/-- Outcome of one `_save_tasks` call: what reached disk (if the write
succeeded) and which exception escaped the method. -/
structure SaveOutcome where
  persisted : Option (List TaskRecord)
  raised : Option PyErr
  deriving DecidableEq, Repr

/-- `TaskManager._save_tasks` (task_manager.py lines 175-184).  `ioErr`
models whether the underlying `open`/`json.dump` raises; the method wraps
the whole write in `try/except Exception` and only prints on failure, so
`raised` is `none` in every case. -/
def save_tasks (ioErr : Option PyErr) (reg : Registry) : SaveOutcome :=
  match ioErr with
  | none => { persisted := some (reg.map (fun p => p.2.to_dict)), raised := none }
  | some _ => { persisted := none, raised := none }

/-- `TaskManager._load_tasks` (task_manager.py lines 161-173), inner loop.
The single `try` wraps the whole `for` loop, so the first record on which
`Task.from_dict` raises stops the loop: records already inserted stay,
the offending record and every later record are lost. -/
def load_tasks_from (acc : Registry) : List TaskRecord → Registry
  | [] => acc
  | r :: rest =>
      match Task.from_dict r with
      | .ok t => load_tasks_from (setTask acc t.task_id t) rest
      | .error _ => acc

/-- `TaskManager._load_tasks` on a parsed document (list of records),
starting from the empty in-memory map. -/
def load_tasks (recs : List TaskRecord) : Registry :=
  load_tasks_from [] recs

/-! ## create_task and update_task (task_manager.py lines 85-125) -/

/-- Result of a `create_task` call. -/
structure CreateResult where
  task_id : String
  registry : Registry
  save : SaveOutcome
  raised : Option PyErr
  deriving DecidableEq, Repr

/-- `TaskManager.create_task` (task_manager.py lines 85-94).  `fresh_id`
stands for `str(uuid.uuid4())` and `now` for the creation timestamp; `ioErr`
is the potential storage-write failure inside `_save_tasks`.  Note the
source signature takes only `cos_path` and `prompt`: no `force_reanalyze`
and no `name` parameter exists. -/
def create_task (reg : Registry) (ioErr : Option PyErr) (fresh_id now cos_path prompt : String) :
    CreateResult :=
  let task := Task.init fresh_id cos_path prompt now
  let reg2 := setTask reg fresh_id task
  let save := save_tasks ioErr reg2
  { task_id := fresh_id, registry := reg2, save := save, raised := save.raised }

/-- The optional field arguments of one `update_task` call
(task_manager.py lines 101-104). -/
structure UpdArgs where
  status : Option TaskStatus := none
  progress : Option Nat := none
  message : Option String := none
  error : Option String := none
  result_file : Option String := none
  cache_used : Option Bool := none
  deriving DecidableEq, Repr

/-- `TaskManager.update_task` (task_manager.py lines 101-125).  Unknown ids
are a silent no-op; each supplied (non-`None`) field overwrites the stored
one; `updated_at` is refreshed; the registry is persisted.  The guard on
`status` in the source is truthiness (`if status:`), but every enum member
is truthy, so it coincides with an is-not-None test. -/
def update_task (reg : Registry) (ioErr : Option PyErr) (now task_id : String) (u : UpdArgs) :
    Registry × SaveOutcome :=
  match findTask reg task_id with
  | none => (reg, { persisted := none, raised := none })
  | some task =>
      let task := match u.status with | some s => { task with status := s } | none => task
      let task := match u.progress with | some p => { task with progress := p } | none => task
      let task := match u.message with | some m => { task with message := m } | none => task
      let task := match u.error with | some e => { task with error := some e } | none => task
      let task := match u.result_file with
        | some f => { task with result_file := some f }
        | none => task
      let task := match u.cache_used with | some b => { task with cache_used := b } | none => task
      let task := { task with updated_at := now }
      let reg2 := setTask reg task_id task
      (reg2, save_tasks ioErr reg2)

/-! ## Cache locator (task_manager.py lines 127-159) -/

/-- The directory-name part of `get_cache_dir`:
`'_'.join(cos_path.strip('/').split('/'))`. -/
def cache_name (cos_path : String) : String :=
  String.mk (joinChar '_' (splitChar '/' (stripChar '/' cos_path.toList)))

/-- `TaskManager.get_cache_dir` (task_manager.py lines 127-133):
`os.path.join(self.cache_root, cache_name)` with a relative second
component. -/
def get_cache_dir (cache_root cos_path : String) : String :=
  String.append cache_root (String.append "/" (cache_name cos_path))

/-- One entry of a local directory: a plain file or a subdirectory with its
own entries.  `os.listdir` sees the names of both kinds; `os.walk` reports
files and recurses into subdirectories. -/
inductive Ent where
  | file : String → Ent
  | dir : String → List Ent → Ent

/-- The name of a directory entry, as `os.listdir` reports it. -/
def Ent.name : Ent → String
  | .file f => f
  | .dir n _ => n

/-- The local filesystem visible to the cache locator: maps an existing
directory path to its entries, `none` when the path does not exist. -/
abbrev LocalFS := String → Option (List Ent)

/-- `TaskManager.check_cache_exists` (task_manager.py lines 135-145):
the directory exists and `os.listdir` (files AND subdirectory names, top
level only) has at least one name ending in `.png`. -/
def check_cache_exists (fs : LocalFS) (cache_root cos_path : String) : Bool :=
  match fs (get_cache_dir cache_root cos_path) with
  | none => false
  | some entries =>
      ((entries.map Ent.name).filter (fun f => pyEndsWith f ".png")).length > 0

/-- The `.png`-named plain files of one directory level, joined onto the
current walk root (the `for file in files` loop body of
`get_cached_png_files`). -/
def pngFilesAt (root : String) : List Ent → List String
  | [] => []
  | .file f :: rest =>
      if pyEndsWith f ".png" then
        String.append root (String.append "/" f) :: pngFilesAt root rest
      else
        pngFilesAt root rest
  | .dir _ _ :: rest => pngFilesAt root rest

/-- The recursive part of `os.walk` (top-down): after the current level,
each subdirectory contributes its own level's files and then its own
subdirectories, in listing order. -/
def walkSubsPng (root : String) : List Ent → List String
  | [] => []
  | .file _ :: rest => walkSubsPng root rest
  | .dir n sub :: rest =>
      (pngFilesAt (String.append root (String.append "/" n)) sub ++
        walkSubsPng (String.append root (String.append "/" n)) sub) ++
      walkSubsPng root rest

/-- The full `os.walk` collection of `.png` file paths under `root`,
top-down: the files of `root` first, then each subtree in order. -/
def osWalkPng (root : String) (entries : List Ent) : List String :=
  pngFilesAt root entries ++ walkSubsPng root entries

/-- Python `sorted` on a list of strings: the ordered rearrangement under
the total lexicographic order (on a totally ordered carrier every correct
sort computes the same list, so a structurally recursive insertion sort
stands in for timsort). -/
def pySorted (l : List String) : List String :=
  l.insertionSort (· ≤ ·)

/-- `TaskManager.get_cached_png_files` (task_manager.py lines 147-159). -/
def get_cached_png_files (fs : LocalFS) (cache_root cos_path : String) : List String :=
  match fs (get_cache_dir cache_root cos_path) with
  | none => []
  | some entries => pySorted (osWalkPng (get_cache_dir cache_root cos_path) entries)

/-! ## Stage 2: GeminiAnalyzer.batch_analyze_images
(gemini_analyzer.py lines 446-564)

The per-item artifact is a JSON document; the only field the orchestration
code inspects or mutates is the cross-reference field `图片COS路径`, so an
artifact is embedded as that field plus an uninterpreted payload.  Local JSON
writes are modelled as succeeding; reads (`json.load` on an existing
artifact) and the per-item analysis call can raise and are oracle fields of
the environment.  Upload outcomes are irrelevant to control flow
(`_upload_analysis_json` swallows its own failures), so an upload is
recorded as an event only. -/

/-- A per-item analysis artifact: the `图片COS路径` cross-reference field
plus the rest of the document, left uninterpreted. -/
structure ArtJson where
  image_cos : Option String
  payload : String
  deriving DecidableEq, Repr

/-- Observable actions of one `batch_analyze_images` run. -/
inductive AEvent where
  | progressCb : Nat → Nat → String → AEvent
  | analyzeCall : String → String → AEvent
  | writeJson : String → ArtJson → AEvent
  | uploadJsonCall : Option String → ArtJson → AEvent
  deriving DecidableEq, Repr

/-- External state and collaborators visible to `batch_analyze_images`. -/
structure AEnv where
  jsonExists : String → Bool
  readJson : String → Except PyErr ArtJson
  analyze : String → Except PyErr ArtJson

/-- `GeminiAnalyzer._build_remote_key` (gemini_analyzer.py lines 446-454). -/
def build_remote_key (pre : Option String) (filename : String) : Option String :=
  match pre with
  | none => none
  | some p =>
      if p = "" then none
      else
        let sanitized := String.mk (stripChar '/' p.toList)
        if sanitized = "" then some filename
        else some (sanitized ++ "/" ++ filename)

/-- Falsiness of the stored `图片COS路径` value, as tested by
`if not data.get(...)`: absent, `None` or empty. -/
def pyFalsyField : Option String → Bool
  | none => true
  | some s => s == ""

/-- The artifact path computed for one image:
`os.path.join(output_dir, splitext(basename(image_path))[0] + ".json")`. -/
def jsonPathFor (output_dir image_path : String) : String :=
  output_dir ++ "/" ++ (pySplitextBase (pyBasename image_path) ++ ".json")

/-- One iteration of the `for i, image_path in enumerate(image_paths, 1)`
loop of `batch_analyze_images` (gemini_analyzer.py lines 487-561).
Returns the events of the iteration and the artifact path appended to
`json_files`, if any.  The whole iteration sits in a `try` whose `except`
logs and drops the item. -/
def analyze_one (env : AEnv) (prompt output_dir : String) (pre : Option String)
    (force : Bool) (i total : Nat) (image_path : String) : List AEvent × Option String :=
  let ev0 : List AEvent := [.progressCb i total ("分析中: " ++ pyBasename image_path)]
  let json_path := jsonPathFor output_dir image_path
  if env.jsonExists json_path && !force then
    let evs :=
      if pyTruthyOptStr pre then
        match env.readJson json_path with
        | .error _ => []
        | .ok d =>
            let backfill := pyFalsyField d.image_cos
            let d2 :=
              if backfill then
                { d with image_cos := build_remote_key pre (pyBasename image_path) }
              else d
            let wevs : List AEvent := if backfill then [.writeJson json_path d2] else []
            wevs ++ [.uploadJsonCall (build_remote_key pre (pyBasename json_path)) d2]
      else []
    (ev0 ++ evs ++ [.progressCb i total ("跳过已分析: " ++ pyBasename image_path)],
     some json_path)
  else
    match env.analyze image_path with
    | .error _ =>
        (ev0 ++ [.analyzeCall image_path prompt,
                 .progressCb i total ("分析失败: " ++ pyBasename image_path)],
         none)
    | .ok result =>
        let image_cos_key :=
          if pyTruthyOptStr pre then build_remote_key pre (pyBasename image_path) else none
        let result2 := { result with image_cos := image_cos_key }
        let uevs : List AEvent :=
          if pyTruthyOptStr pre then
            [.uploadJsonCall (build_remote_key pre (pyBasename json_path)) result2]
          else []
        (ev0 ++ [.analyzeCall image_path prompt, .writeJson json_path result2] ++ uevs,
         some json_path)

/-- The loop of `batch_analyze_images` from index `i` on. -/
def batch_analyze_from (env : AEnv) (prompt output_dir : String) (pre : Option String)
    (force : Bool) (total : Nat) : Nat → List String → List AEvent × List String
  | _, [] => ([], [])
  | i, p :: rest =>
      let r1 := analyze_one env prompt output_dir pre force i total p
      let r2 := batch_analyze_from env prompt output_dir pre force total (i + 1) rest
      (r1.1 ++ r2.1, match r1.2 with | some j => j :: r2.2 | none => r2.2)

/-- `GeminiAnalyzer.batch_analyze_images` (gemini_analyzer.py lines
464-564): events of the run and the returned `json_files` list. -/
def batch_analyze_images (env : AEnv) (image_paths : List String) (prompt output_dir : String)
    (pre : Option String) (force : Bool) : List AEvent × List String :=
  batch_analyze_from env prompt output_dir pre force image_paths.length 1 image_paths

/-! ## Pipeline Runner: TaskProcessor.process_task
(task_processor.py lines 20-173) -/

/-- Collaborator invocations made by the Runner. -/
inductive ECall where
  | downloadFiles : String → String → ECall
  | batchAnalyze : List String → String → String → Option String → Bool → ECall
  | mergeAnalyze : List String → String → String → Option String → ECall
  deriving DecidableEq, Repr

/-- External state and collaborators visible to one `process_task` run:
the filesystem, the `TaskManager` construction parameters, the wall clock,
the storage-write outcome, and the download/analysis collaborators.  The
download result lists the fetched `png` and `json` paths; the download
progress callbacks relayed by `COSDownloader.download_files` are given as
`(current, total, message)` triples. -/
structure PEnv where
  fs : LocalFS
  cache_root : String
  now : String
  saveErr : Option PyErr
  downloaderInit : Option PyErr
  downloadEvents : List (Nat × Nat × String)
  downloadResult : Except PyErr (List String × List String)
  analyzerInit : Option PyErr
  batchResult : List String
  mergeResult : Except PyErr String

/-- The `update_task` arguments of the cache branch (task_processor.py
lines 40-46). -/
def updUsingCache : UpdArgs :=
  { status := some .downloading, progress := some 10,
    message := some "使用本地缓存", cache_used := some true }

/-- The `update_task` arguments opening the download branch
(task_processor.py lines 50-55). -/
def updStartDownload : UpdArgs :=
  { status := some .downloading, progress := some 10,
    message := some "开始下载PNG和JSON文件" }

/-- One relayed download progress callback (task_processor.py lines
60-66): progress mapped linearly into the range from 10. -/
def updDownloadProgress (current total : Nat) (msg : String) : UpdArgs :=
  { progress := some (10 + 30 * current / total),
    message := some ("下载进度: " ++ toString current ++ "/" ++ toString total ++ " - " ++ msg) }

/-- The size-guard failure update (task_processor.py lines 86-92): FAILED
with an explicit progress reset to 0. -/
def updSizeGuardFail (n : Nat) : UpdArgs :=
  { status := some .failed, progress := some 0,
    message := some ("图片数量超过限制: " ++ toString n ++ " > 30"),
    error := some "图片数量超过限制(30)" }

/-- The stage-2 entry update (task_processor.py lines 97-102). -/
def updAnalyzing : UpdArgs :=
  { status := some .analyzing, progress := some 40, message := some "开始分析PNG文件" }

/-- The stage-3 entry update (task_processor.py lines 135-140). -/
def updMerging : UpdArgs :=
  { status := some .merging, progress := some 80, message := some "开始合并分析" }

/-- The completion update (task_processor.py lines 156-162). -/
def updCompleted (result_file : String) : UpdArgs :=
  { status := some .completed, progress := some 100,
    message := some "分析完成", result_file := some result_file }

/-- The top-level `except` update (task_processor.py lines 166-173):
FAILED, fixed message, error set to the description of the caught
exception; progress not supplied. -/
def updTaskFailed (e : PyErr) : UpdArgs :=
  { status := some .failed, message := some "任务失败", error := some e.describe }

/-- The attribute read `task.force_reanalyze` (task_processor.py line 125).
`Task.__init__` (task_manager.py lines 26-37) assigns no such attribute and
nothing else ever sets it, so the read raises `AttributeError`. -/
def task_force_reanalyze (_t : Task) : Except PyErr Bool :=
  .error (.attributeError "Task object has no attribute force_reanalyze")

/-- Modelled from the spec: the fixed stage-2 analysis prompt
`prompt_score_rule` imported from `gemini.anlysis_rule`
(task_processor.py line 117), a module of this repository missing from the
source tree.  Per the spec it is a fixed analysis prompt, so it is embedded
as an uninterpreted constant string. -/
def prompt_score_rule : String := "prompt_score_rule"

/-- Stage 1 of `process_task` (task_processor.py lines 37-81): the
`update_task` argument sets issued, the collaborator calls made, and either
the resulting `png_files` list or the exception raised. -/
def stage1 (env : PEnv) (cos_path : String) : List UpdArgs × List ECall × Except PyErr (List String) :=
  let cache_dir := get_cache_dir env.cache_root cos_path
  if check_cache_exists env.fs env.cache_root cos_path then
    ([updUsingCache], [], .ok (get_cached_png_files env.fs env.cache_root cos_path))
  else
    match env.downloaderInit with
    | some e => ([updStartDownload], [], .error e)
    | none =>
      let evs := env.downloadEvents.map (fun ev => updDownloadProgress ev.1 ev.2.1 ev.2.2)
      match env.downloadResult with
      | .error e => (updStartDownload :: evs, [.downloadFiles cos_path cache_dir], .error e)
      | .ok (png, _json) =>
          if png.isEmpty then
            (updStartDownload :: evs, [.downloadFiles cos_path cache_dir],
             .error (.valueError ("未找到PNG文件: " ++ cos_path)))
          else
            (updStartDownload :: evs, [.downloadFiles cos_path cache_dir], .ok png)

/-- The body of the `try` block of `process_task` (task_processor.py lines
32-164), as the sequence of `update_task` argument sets it issues, the
collaborator calls it makes, and its normal or exceptional exit.  The body
never reads the registry back (the `task` snapshot is taken before the
`try`), every update targets `task_id`, and `update_task` never raises, so
logging the updates and folding them into the registry afterwards is
equivalent to applying them at each program point. -/
def bodyTrace (env : PEnv) (task : Task) (task_id : String) :
    List UpdArgs × List ECall × Except PyErr Unit :=
  let cos_path := task.cos_path
  let cache_dir := get_cache_dir env.cache_root cos_path
  match stage1 env cos_path with
  | (upds, calls, .error e) => (upds, calls, .error e)
  | (upds, calls, .ok png_files) =>
    if !png_files.isEmpty && png_files.length > 30 then
      (upds ++ [updSizeGuardFail png_files.length], calls, .ok ())
    else
      let upds := upds ++ [updAnalyzing]
      match env.analyzerInit with
      | some e => (upds, calls, .error e)
      | none =>
        let cos_result_pref : Option String := some (String.mk (stripChar '/' cos_path.toList))
        match task_force_reanalyze task with
        | .error e => (upds, calls, .error e)
        | .ok force =>
          let calls := calls ++ [.batchAnalyze png_files prompt_score_rule cache_dir cos_result_pref force]
          let json_files := env.batchResult
          if json_files.isEmpty then
            (upds, calls, .error (.valueError "没有生成有效的JSON文件"))
          else
            let upds := upds ++ [updMerging]
            let result_file := cache_dir ++ "/" ++ (task_id ++ ".txt")
            let calls := calls ++ [.mergeAnalyze json_files task.prompt result_file cos_result_pref]
            match env.mergeResult with
            | .error e => (upds, calls, .error e)
            | .ok _ => (upds ++ [updCompleted result_file], calls, .ok ())

/-- Apply a sequence of logged `update_task` argument sets to the registry,
in order, all targeting the same task id. -/
def applyUpdates (reg : Registry) (ioErr : Option PyErr) (now task_id : String) :
    List UpdArgs → Registry
  | [] => reg
  | u :: rest => applyUpdates (update_task reg ioErr now task_id u).1 ioErr now task_id rest

/-- The outcome of one `process_task` run: the final registry, the
`update_task` argument sets issued in order (including the one issued by
the top-level `except` handler, if it ran), the collaborator calls, and the
exception caught by the top-level handler, if any. -/
structure PResult where
  registry : Registry
  updates : List UpdArgs
  calls : List ECall
  bodyErr : Option PyErr

/-- `TaskProcessor.process_task` (task_processor.py lines 20-173): unknown
ids are logged and ignored; otherwise the `try` body runs, and any
exception it raises is caught by the top-level `except`, which issues the
FAILED update.  No exception escapes (the function is total). -/
def process_task (env : PEnv) (reg : Registry) (task_id : String) : PResult :=
  match findTask reg task_id with
  | none => { registry := reg, updates := [], calls := [], bodyErr := none }
  | some task =>
      match bodyTrace env task task_id with
      | (upds, calls, .ok _) =>
          { registry := applyUpdates reg env.saveErr env.now task_id upds,
            updates := upds, calls := calls, bodyErr := none }
      | (upds, calls, .error e) =>
          { registry := applyUpdates reg env.saveErr env.now task_id (upds ++ [updTaskFailed e]),
            updates := upds ++ [updTaskFailed e], calls := calls, bodyErr := some e }

/-! ## The create endpoint call arity (api_routes.py line 77)

`create_analysis` parses `cos_path, prompt, name, force_reanalyze` from the
request and calls `task_manager.create_task(cos_path, prompt,
force_reanalyze, name)` with four positional arguments, while
`TaskManager.create_task` (task_manager.py line 85) accepts exactly two
non-self parameters and has no defaults, so Python raises `TypeError` at
the call. -/

/-- Non-self parameters of `TaskManager.create_task`: `cos_path, prompt`. -/
def create_task_param_count : Nat := 2

/-- Positional arguments passed by the API route:
`cos_path, prompt, force_reanalyze, name`. -/
def api_create_call_arg_count : Nat := 4

/-- A Python call binds when the positional argument count matches the
parameter count (for a signature with only required positional
parameters); otherwise the call raises `TypeError` before the body runs. -/
def pyCallBinds (param_count arg_count : Nat) : Bool :=
  param_count == arg_count

/-! ## Theorems

### Cache locator: determinism and collision resistance (C8) -/

theorem splitChar_ne_nil (c : Char) (l : List Char) : splitChar c l ≠ [] := by
  cases l with
  | nil => simp [splitChar]
  | cons ch rest =>
      simp only [splitChar]
      split
      · simp
      · split <;> simp

/-- Splitting on one character and re-joining with another is exactly the
character-wise substitution of the separator. -/
theorem joinChar_splitChar (c₁ c₂ : Char) (l : List Char) :
    joinChar c₂ (splitChar c₁ l) =
      l.map (fun ch => if ch = c₁ then c₂ else ch) := by
  induction l with
  | nil => rfl
  | cons ch rest ih =>
      obtain ⟨s, ss, hr⟩ : ∃ s ss, splitChar c₁ rest = s :: ss := by
        cases hsp : splitChar c₁ rest with
        | nil => exact absurd hsp (splitChar_ne_nil _ _)
        | cons s ss => exact ⟨s, ss, rfl⟩
      by_cases h : ch = c₁
      · have hsplit : splitChar c₁ (ch :: rest) = [] :: s :: ss := by
          simp [splitChar, h, hr]
        have hj : joinChar c₂ ([] :: s :: ss) = c₂ :: joinChar c₂ (s :: ss) := rfl
        rw [hsplit, hj, ← hr, ih]
        simp [h]
      · have hsplit : splitChar c₁ (ch :: rest) = (ch :: s) :: ss := by
          simp [splitChar, h, hr]
        cases ss with
        | nil =>
            have ihs : s = rest.map (fun ch => if ch = c₁ then c₂ else ch) := by
              simpa [hr, joinChar] using ih
            simp [hsplit, joinChar, h, ← ihs]
        | cons x xs =>
            have hj : joinChar c₂ ((ch :: s) :: x :: xs) =
                ch :: joinChar c₂ (s :: x :: xs) := rfl
            rw [hsplit, hj, ← hr, ih]
            simp [h]

theorem stripChar_eq_self (c : Char) (l : List Char)
    (h1 : l.head? ≠ some c) (h2 : l.getLast? ≠ some c) : stripChar c l = l := by
  have d1 : l.dropWhile (· = c) = l := by
    cases l with
    | nil => rfl
    | cons a t =>
        have ha : ¬(a = c) := by simpa using h1
        simp [List.dropWhile_cons, ha]
  have d2 : l.reverse.dropWhile (· = c) = l.reverse := by
    cases hrev : l.reverse with
    | nil => rfl
    | cons a t =>
        have ha : ¬(a = c) := by
          have : l.getLast? = some a := by
            rw [← List.head?_reverse, hrev]
            rfl
          intro hac
          exact h2 (by rw [this, hac])
        simp [List.dropWhile_cons, ha]
  rw [stripChar, d1, d2, List.reverse_reverse]

/-- Replacing the separator is reversible on strings that avoid the
substitute character, hence injective there. -/
theorem map_sep_subst_inj (l₁ l₂ : List Char)
    (h1 : ∀ ch ∈ l₁, ch ≠ '_') (h2 : ∀ ch ∈ l₂, ch ≠ '_')
    (heq : l₁.map (fun ch => if ch = '/' then '_' else ch) =
      l₂.map (fun ch => if ch = '/' then '_' else ch)) : l₁ = l₂ := by
  have key : ∀ l : List Char, (∀ ch ∈ l, ch ≠ '_') →
      (l.map (fun ch => if ch = '/' then '_' else ch)).map
        (fun ch => if ch = '_' then '/' else ch) = l := by
    intro l hl
    induction l with
    | nil => rfl
    | cons a t iht =>
        have ha : a ≠ '_' := hl a (List.mem_cons_self a t)
        have ht : ∀ ch ∈ t, ch ≠ '_' := fun ch hch => hl ch (List.mem_cons_of_mem a hch)
        by_cases hsl : a = '/'
        · simp [hsl, iht ht]
        · simp [hsl, ha, iht ht]
  calc l₁ = (l₁.map (fun ch => if ch = '/' then '_' else ch)).map
        (fun ch => if ch = '_' then '/' else ch) := (key l₁ h1).symm
    _ = (l₂.map (fun ch => if ch = '/' then '_' else ch)).map
        (fun ch => if ch = '_' then '/' else ch) := by rw [heq]
    _ = l₂ := key l₂ h2

/-- The expected input alphabet for `sourceRef` values (spec section 4.1):
non-empty storage path prefixes such as `egg/uuid/2025-10-15`, written
without the substituted separator character `_` and without a leading or
trailing slash. -/
def expected_ref (s : String) : Bool :=
  (!s.toList.isEmpty) && s.toList.all (fun ch => ch != '_') &&
  (s.toList.head? != some '/') && (s.toList.getLast? != some '/')

theorem cache_name_eq_subst (s : String) (hh : s.toList.head? ≠ some '/')
    (hl : s.toList.getLast? ≠ some '/') :
    cache_name s = String.mk (s.toList.map (fun ch => if ch = '/' then '_' else ch)) := by
  rw [cache_name, stripChar_eq_self _ _ hh hl, joinChar_splitChar]

/-- C8: `get_cache_dir` is a pure function of its inputs (it is a plain
function of `cache_root` and `cos_path` and of no other state, so it is
deterministic and stable across restarts), and on the expected input
alphabet it is collision-resistant: two distinct `sourceRef` values are
mapped to distinct cache directories. -/
theorem c8_cache_dir_injective (root s₁ s₂ : String)
    (h₁ : expected_ref s₁ = true) (h₂ : expected_ref s₂ = true)
    (heq : get_cache_dir root s₁ = get_cache_dir root s₂) : s₁ = s₂ := by
  have e₁ := h₁
  have e₂ := h₂
  simp only [expected_ref, Bool.and_eq_true, List.all_eq_true, bne_iff_ne,
    Bool.not_eq_true', ne_eq, decide_eq_true_eq] at e₁ e₂
  obtain ⟨⟨⟨-, hu₁⟩, hh₁⟩, hl₁⟩ := e₁
  obtain ⟨⟨⟨-, hu₂⟩, hh₂⟩, hl₂⟩ := e₂
  have hn : cache_name s₁ = cache_name s₂ := by
    have hdata := congrArg String.data heq
    simp only [get_cache_dir, String.data_append] at hdata
    have hcut := List.append_cancel_left (List.append_cancel_left hdata)
    exact congrArg String.mk hcut
  rw [cache_name_eq_subst s₁ hh₁ hl₁, cache_name_eq_subst s₂ hh₂ hl₂] at hn
  have hmaps : s₁.toList.map (fun ch => if ch = '/' then '_' else ch) =
      s₂.toList.map (fun ch => if ch = '/' then '_' else ch) := by
    injection hn
  have : s₁.toList = s₂.toList := map_sep_subst_inj _ _ hu₁ hu₂ hmaps
  cases s₁ with
  | mk d₁ => cases s₂ with
    | mk d₂ => exact congrArg String.mk this

/-- Witness for C8 at a concrete expected input. -/
theorem c8_cache_dir_injective_witness : "egg/uuid1/2025-10-15" = "egg/uuid1/2025-10-15" :=
  c8_cache_dir_injective "./cache" "egg/uuid1/2025-10-15" "egg/uuid1/2025-10-15"
    (by decide) (by decide) rfl

/-! ### Cache probing: check_cache_exists vs get_cached_png_files (C9, C10)

`check_cache_exists` looks only at the top level of the cache directory and
at the names `os.listdir` reports (which include subdirectory names), while
`get_cached_png_files` walks recursively and collects plain files only.
The two disagree in both directions. -/

/-- A cache directory whose only `.png` content sits in a subdirectory:
`os.listdir` sees just the name `sub`. -/
def fsSubdirOnly : LocalFS := fun _ => some [Ent.dir "sub" [Ent.file "a.png"]]

/-- A cache directory whose only top-level entry is a subdirectory that is
itself named like a `.png` file. -/
def fsDirNamedPng : LocalFS := fun _ => some [Ent.dir "x.png" []]

/-- C9 counterexample: the claim says `check_cache_exists` is true iff the
directory contains a primary-type file in the sense of the recursive
enumeration; on a cache whose only `.png` file sits in a subdirectory,
`get_cached_png_files` is non-empty yet `check_cache_exists` is false. -/
theorem c9_counterexample :
    check_cache_exists fsSubdirOnly "./cache" "egg/u" = false ∧
    get_cached_png_files fsSubdirOnly "./cache" "egg/u" ≠ [] := by
  constructor
  · rfl
  · simp [get_cached_png_files, fsSubdirOnly, osWalkPng, pngFilesAt, walkSubsPng,
      pySorted, pyEndsWith, List.insertionSort]

theorem mem_pngFilesAt (root f : String) (entries : List Ent)
    (hmem : Ent.file f ∈ entries) (hpng : pyEndsWith f ".png" = true) :
    String.append root (String.append "/" f) ∈ pngFilesAt root entries := by
  induction entries with
  | nil => cases hmem
  | cons e rest ih =>
      cases e with
      | file g =>
          rcases List.mem_cons.mp hmem with hg | hrest
          · have : g = f := by injection hg.symm
            subst this
            simp [pngFilesAt, hpng]
          · cases hfg : pyEndsWith g ".png" <;> simp [pngFilesAt, hfg, ih hrest]
      | dir n sub =>
          rcases List.mem_cons.mp hmem with hg | hrest
          · cases hg
          · simpa [pngFilesAt] using ih hrest

/-- C9 amended: `check_cache_exists` is true iff the cache directory exists
and at least one TOP-LEVEL entry (plain file or subdirectory alike, as
listed by `os.listdir`) has a name ending in `.png`; the recursive
enumeration of `get_cached_png_files` plays no part in the test. -/
theorem c9_amended_check_is_top_level (fs : LocalFS) (cache_root cos_path : String) :
    check_cache_exists fs cache_root cos_path = true ↔
      ∃ entries, fs (get_cache_dir cache_root cos_path) = some entries ∧
        ∃ e ∈ entries, pyEndsWith (Ent.name e) ".png" = true := by
  constructor
  · intro hchk
    unfold check_cache_exists at hchk
    cases h : fs (get_cache_dir cache_root cos_path) with
    | none => rw [h] at hchk; cases hchk
    | some entries =>
        rw [h] at hchk
        refine ⟨entries, rfl, ?_⟩
        simp only [decide_eq_true_eq] at hchk
        obtain ⟨x, hx⟩ := List.exists_mem_of_length_pos hchk
        obtain ⟨hxm, hxp⟩ := List.mem_filter.mp hx
        obtain ⟨e, hem, hen⟩ := List.mem_map.mp hxm
        exact ⟨e, hem, by rw [hen]; exact hxp⟩
  · rintro ⟨entries, he, e, hem, hpng⟩
    unfold check_cache_exists
    rw [he]
    simp only [decide_eq_true_eq]
    have hx : Ent.name e ∈ (entries.map Ent.name).filter (fun f => pyEndsWith f ".png") :=
      List.mem_filter.mpr ⟨List.mem_map.mpr ⟨e, hem, rfl⟩, hpng⟩
    exact List.length_pos.mpr (List.ne_nil_of_mem hx)

/-- C10 counterexample: a top-level SUBDIRECTORY named `x.png` makes
`check_cache_exists` true (it tests `os.listdir` names), while the
recursive file walk of `get_cached_png_files` finds no file at all, so the
cached stage-1 branch can proceed with an empty input list. -/
theorem c10_counterexample :
    check_cache_exists fsDirNamedPng "./cache" "egg/u" = true ∧
    get_cached_png_files fsDirNamedPng "./cache" "egg/u" = [] := by
  constructor
  · rfl
  · simp [get_cached_png_files, fsDirNamedPng, osWalkPng, pngFilesAt, walkSubsPng,
      pySorted]

/-- C10 amended: whenever the cache directory has a top-level PLAIN FILE
whose name ends in `.png` (the intended situation; this is what makes
`check_cache_exists` true on caches populated by the downloader),
`get_cached_png_files` is non-empty.  The implication fails as stated in
the claim only when `check_cache_exists` is satisfied by a subdirectory
name ending in `.png`. -/
theorem c10_amended_file_gives_nonempty (fs : LocalFS) (cache_root cos_path : String)
    (entries : List Ent) (f : String)
    (hfs : fs (get_cache_dir cache_root cos_path) = some entries)
    (hmem : Ent.file f ∈ entries) (hpng : pyEndsWith f ".png" = true) :
    get_cached_png_files fs cache_root cos_path ≠ [] := by
  unfold get_cached_png_files
  rw [hfs]
  intro hnil
  have hlen : (osWalkPng (get_cache_dir cache_root cos_path) entries).length = 0 := by
    have := congrArg List.length hnil
    simpa [pySorted, List.length_insertionSort] using this
  have hm : String.append (get_cache_dir cache_root cos_path)
      (String.append "/" f) ∈ osWalkPng (get_cache_dir cache_root cos_path) entries := by
    unfold osWalkPng
    exact List.mem_append.mpr (Or.inl (mem_pngFilesAt _ _ _ hmem hpng))
  have := List.ne_nil_of_mem hm
  exact this (List.eq_nil_of_length_eq_zero hlen)

/-- Witness for C10 amended on a one-file cache. -/
theorem c10_amended_file_gives_nonempty_witness :
    get_cached_png_files (fun _ => some [Ent.file "b.png"]) "./cache" "egg/w" ≠ [] :=
  c10_amended_file_gives_nonempty (fun _ => some [Ent.file "b.png"]) "./cache" "egg/w"
    [Ent.file "b.png"] "b.png" rfl (List.mem_cons_self _ _) (by decide)

/-! ### Registry update semantics (C2, C5, C6, C1) -/

theorem findTask_cons (k : String) (v : Task) (rest : Registry) (id : String) :
    findTask ((k, v) :: rest) id = if k = id then some v else findTask rest id := by
  by_cases h : k = id
  · subst h
    simp [findTask, List.find?]
  · have hb : (k == id) = false := beq_eq_false_iff_ne.mpr h
    simp [findTask, List.find?, hb, h]

theorem setTask_cons (k : String) (v : Task) (rest : Registry) (id : String) (t : Task) :
    setTask ((k, v) :: rest) id t =
      if k = id then (k, t) :: rest else (k, v) :: setTask rest id t := rfl

/-- Looking up after a dict store: the stored key maps to the new task,
every other key is untouched. -/
theorem findTask_setTask (reg : Registry) (key id : String) (t : Task) :
    findTask (setTask reg key t) id =
      if key = id then some t else findTask reg id := by
  induction reg with
  | nil =>
      by_cases h : key = id
      · subst h
        simp [setTask, findTask, List.find?]
      · have hb : (key == id) = false := beq_eq_false_iff_ne.mpr h
        simp [setTask, findTask, List.find?, hb, h]
  | cons p rest ih =>
      obtain ⟨pk, pv⟩ := p
      rw [setTask_cons]
      by_cases h1 : pk = key
      · rw [if_pos h1, findTask_cons, findTask_cons]
        by_cases h2 : pk = id
        · rw [if_pos h2, if_pos h2, if_pos (h1 ▸ h2)]
        · rw [if_neg h2, if_neg h2, if_neg (fun hki => h2 (h1.trans hki))]
      · rw [if_neg h1, findTask_cons, findTask_cons, ih]
        by_cases h2 : pk = id
        · have : ¬key = id := fun hk => h1 (h2.trans hk.symm)
          rw [if_pos h2, if_pos h2, if_neg this]
        · rw [if_neg h2, if_neg h2]

theorem findTask_setTask_self (reg : Registry) (task_id : String) (t : Task) :
    findTask (setTask reg task_id t) task_id = some t := by
  rw [findTask_setTask, if_pos rfl]

theorem findTask_isSome_setTask (reg : Registry) (k task_id : String) (t : Task)
    (h : (findTask reg task_id).isSome = true) :
    (findTask (setTask reg k t) task_id).isSome = true := by
  rw [findTask_setTask]
  by_cases hk : k = task_id
  · rw [if_pos hk]
    rfl
  · rwa [if_neg hk]

/-- A task stored under `"done"` that has already reached `COMPLETED`. -/
def tDone : Task :=
  { Task.init "done" "egg/u" "p" "t0" with status := .completed, progress := 100 }

/-- C2 counterexample: the Registry's `update_task` enforces no transition
discipline; a single update call moves a `COMPLETED` task back to
`PENDING`, so it is not true that every sequence of Registry update
operations keeps the status inside the forward pipeline order, nor that
`COMPLETED` is terminal against update calls. -/
theorem c2_counterexample :
    tDone.status = TaskStatus.completed ∧
    (findTask (update_task [("done", tDone)] none "t1" "done"
        { status := some .pending }).1 "done").map Task.status = some TaskStatus.pending := by
  constructor
  · rfl
  · rfl

/-- C5 counterexample: a failing storage write inside `_save_tasks` is NOT
propagated to the caller of `create_task`; the exception is caught and
only logged, the call returns normally (`raised = none`) even though
nothing was persisted. -/
theorem c5_counterexample :
    (create_task [] (some (.ioError "disk full")) "id1" "t0" "egg/u" "p").raised = none ∧
    (create_task [] (some (.ioError "disk full")) "id1" "t0" "egg/u" "p").save.persisted
      = none := by
  constructor
  · rfl
  · rfl

/-- C5 amended: a storage-write failure during a mutating Registry
operation is swallowed inside `_save_tasks` (logged only): `create_task`
and `update_task` never raise, for any write outcome; the in-memory
mutation still happens and the fresh id is still returned. -/
theorem c5_amended_mutations_never_raise (reg : Registry) (ioErr : Option PyErr)
    (fresh_id now cos_path prompt task_id : String) (u : UpdArgs) :
    (create_task reg ioErr fresh_id now cos_path prompt).raised = none ∧
    (create_task reg ioErr fresh_id now cos_path prompt).task_id = fresh_id ∧
    findTask (create_task reg ioErr fresh_id now cos_path prompt).registry fresh_id =
      some (Task.init fresh_id cos_path prompt now) ∧
    (update_task reg ioErr now task_id u).2.raised = none := by
  refine ⟨?_, rfl, ?_, ?_⟩
  · unfold create_task save_tasks
    cases ioErr <;> rfl
  · exact findTask_setTask_self reg fresh_id (Task.init fresh_id cos_path prompt now)
  · unfold update_task
    cases findTask reg task_id with
    | none => rfl
    | some t =>
        unfold save_tasks
        cases ioErr <;> rfl

/-- A well-formed persisted record with the given id and a recognized
status value. -/
def recGood (id : String) : TaskRecord :=
  { task_id := id, cos_path := "egg/u", prompt := "p", status := "completed",
    created_at := "t", updated_at := "t", progress := 100, message := "",
    error := none, result_file := none, cache_used := false }

/-- A persisted record carrying an unrecognized status enum value. -/
def recBadStatus : TaskRecord :=
  { recGood "b" with status := "bogus" }

/-- Whether `Task.from_dict` parses the record without raising. -/
def from_dict_ok (r : TaskRecord) : Bool :=
  match Task.from_dict r with
  | .ok _ => true
  | .error _ => false

/-- The task that record `recGood "a"` parses to. -/
def tLoadedA : Task :=
  { Task.init "a" "egg/u" "p" "t" with status := .completed, progress := 100 }

/-- C6 counterexample: with the document `[good "a", bad, good "c"]`, the
record `"c"` has a perfectly recognizable status yet is NOT loaded,
because the single `try` of `_load_tasks` wraps the whole loop and the
`ValueError` on the bad record aborts it; only the prefix before the bad
record survives.  So it is false that exactly the unrecognized-status
records are dropped. -/
theorem c6_counterexample :
    from_dict_ok (recGood "c") = true ∧
    findTask (load_tasks [recGood "a", recBadStatus, recGood "c"]) "c" = none ∧
    findTask (load_tasks [recGood "a", recBadStatus, recGood "c"]) "a" =
      some tLoadedA := by
  refine ⟨rfl, rfl, rfl⟩

/-- C6 amended: startup parsing is never aborted (the loader is total),
but it keeps only the longest prefix of records that parse: loading a
document is the same as loading the `takeWhile`-prefix of records on which
`Task.from_dict` succeeds; the first failing record (in particular one with
an unrecognized status) and every record after it are dropped. -/
theorem c6_amended_load_stops_at_first_bad (recs : List TaskRecord) :
    load_tasks recs = load_tasks (recs.takeWhile from_dict_ok) := by
  unfold load_tasks
  generalize [] = acc
  induction recs generalizing acc with
  | nil => rfl
  | cons r rest ih =>
      cases h : Task.from_dict r with
      | ok t =>
          have hok : from_dict_ok r = true := by unfold from_dict_ok; rw [h]
          simp only [List.takeWhile_cons, hok, if_pos]
          rw [load_tasks_from, load_tasks_from, h]
          exact ih _
      | error e =>
          have hbad : from_dict_ok r = false := by unfold from_dict_ok; rw [h]
          simp only [List.takeWhile_cons, hbad]
          rw [load_tasks_from, h]
          rfl

/-- C1 (code bug): `TaskManager.create_task` accepts two non-self
parameters while the API route `create_analysis` passes four
(`cos_path, prompt, force_reanalyze, name`), so the documented create call
raises `TypeError` before any task is built; and the two-parameter
`create_task` that actually exists stores a fresh `PENDING` task that has
no `force_reanalyze` and no `name` field at all (the `Task` record carries
none).  The claim's behaviour (flag and name recorded on the task) is
unimplementable against this `Task`. -/
theorem c1_create_signature_mismatch :
    pyCallBinds create_task_param_count api_create_call_arg_count = false ∧
    (create_task [] none "id0" "t0" "egg/u" "p").raised = none ∧
    findTask (create_task [] none "id0" "t0" "egg/u" "p").registry "id0" =
      some (Task.init "id0" "egg/u" "p" "t0") ∧
    (Task.init "id0" "egg/u" "p" "t0").status = TaskStatus.pending := by
  refine ⟨rfl, rfl, rfl, rfl⟩

/-! ### Stage-2 skip logic (C7) -/

/-- An `analyzeCall` event can only originate from the item it names, and
only when the skip condition (`artifact exists and not force`) is false. -/
theorem analyzeCall_analyze_one (env : AEnv) (prompt outdir : String) (pre : Option String)
    (force : Bool) (i total : Nat) (p x pr : String)
    (h : AEvent.analyzeCall x pr ∈ (analyze_one env prompt outdir pre force i total p).1) :
    x = p ∧ pr = prompt ∧ (env.jsonExists (jsonPathFor outdir p) && !force) = false := by
  by_cases hc : (env.jsonExists (jsonPathFor outdir p) && !force) = true
  · exfalso
    simp only [analyze_one, hc, if_pos] at h
    by_cases htr : pyTruthyOptStr pre = true
    · rw [if_pos htr] at h
      cases hread : env.readJson (jsonPathFor outdir p) with
      | error e => rw [hread] at h; simp at h
      | ok d =>
          rw [hread] at h
          by_cases hbf : pyFalsyField d.image_cos = true
          · simp [hbf] at h
          · simp [hbf] at h
    · rw [if_neg htr] at h
      simp at h
  · have hc₂ : (env.jsonExists (jsonPathFor outdir p) && !force) = false := by
      cases hval : (env.jsonExists (jsonPathFor outdir p) && !force)
      · rfl
      · exact absurd hval hc
    refine ?_
    simp only [analyze_one, hc₂, Bool.false_eq_true, if_neg] at h
    cases hana : env.analyze p with
    | error e =>
        rw [hana] at h
        simp at h
        obtain ⟨hx, hpr⟩ := h
        exact ⟨hx, hpr, hc₂⟩
    | ok result =>
        rw [hana] at h
        simp at h
        obtain ⟨hx, hpr⟩ := h
        exact ⟨hx, hpr, hc₂⟩

/-- In the skip branch the artifact path is returned unchanged. -/
theorem analyze_one_skip_out (env : AEnv) (prompt outdir : String) (pre : Option String)
    (i total : Nat) (p : String)
    (hex : env.jsonExists (jsonPathFor outdir p) = true) :
    (analyze_one env prompt outdir pre false i total p).2 = some (jsonPathFor outdir p) := by
  simp [analyze_one, hex]

/-- In the skip branch with a configured (truthy) publish target and a
readable artifact, the artifact is re-published: the possibly backfilled
document is uploaded under the artifact's remote key, and when the
cross-reference field was missing the backfilled document is also written
back locally. -/
theorem analyze_one_skip_publish (env : AEnv) (prompt outdir : String) (pre : Option String)
    (i total : Nat) (p : String) (d : ArtJson)
    (hex : env.jsonExists (jsonPathFor outdir p) = true)
    (htr : pyTruthyOptStr pre = true)
    (hread : env.readJson (jsonPathFor outdir p) = .ok d) :
    ∃ d2, AEvent.uploadJsonCall (build_remote_key pre (pyBasename (jsonPathFor outdir p))) d2
        ∈ (analyze_one env prompt outdir pre false i total p).1 ∧
      (pyFalsyField d.image_cos = false → d2 = d) ∧
      (pyFalsyField d.image_cos = true →
        d2 = { d with image_cos := build_remote_key pre (pyBasename p) } ∧
        AEvent.writeJson (jsonPathFor outdir p) d2
          ∈ (analyze_one env prompt outdir pre false i total p).1) := by
  by_cases hbf : pyFalsyField d.image_cos = true
  · refine ⟨{ d with image_cos := build_remote_key pre (pyBasename p) }, ?_, ?_, ?_⟩
    · simp [analyze_one, hex, htr, hread, hbf]
    · intro hcontra
      rw [hbf] at hcontra
      cases hcontra
    · intro _
      refine ⟨rfl, ?_⟩
      simp [analyze_one, hex, htr, hread, hbf]
  · have hbf₂ : pyFalsyField d.image_cos = false := by
      cases hval : pyFalsyField d.image_cos
      · rfl
      · exact absurd hval hbf
    refine ⟨d, ?_, fun _ => rfl, ?_⟩
    · simp [analyze_one, hex, htr, hread, hbf₂]
    · intro hcontra
      rw [hbf₂] at hcontra
      cases hcontra

/-- With `force_reanalyze = true` the per-item analysis collaborator is
invoked for the item, whatever the artifact situation. -/
theorem analyze_one_force_calls (env : AEnv) (prompt outdir : String) (pre : Option String)
    (i total : Nat) (p : String) :
    AEvent.analyzeCall p prompt ∈ (analyze_one env prompt outdir pre true i total p).1 := by
  have hc : (env.jsonExists (jsonPathFor outdir p) && !true) = false := by
    simp
  simp only [analyze_one, hc, Bool.false_eq_true, if_neg]
  cases hana : env.analyze p <;> simp

theorem batch_no_analyzeCall (env : AEnv) (prompt outdir : String) (pre : Option String)
    (p : String) (hex : env.jsonExists (jsonPathFor outdir p) = true)
    (total : Nat) :
    ∀ (i : Nat) (paths : List String),
      AEvent.analyzeCall p prompt ∉
        (batch_analyze_from env prompt outdir pre false total i paths).1 := by
  intro i paths
  induction paths generalizing i with
  | nil => simp [batch_analyze_from]
  | cons q rest ih =>
      simp only [batch_analyze_from, List.mem_append]
      rintro (h | h)
      · obtain ⟨hx, -, hc⟩ := analyzeCall_analyze_one env prompt outdir pre false i total q p prompt h
        rw [hx] at hex
        rw [hex] at hc
        simp at hc
      · exact ih (i + 1) h

theorem batch_force_analyzeCall (env : AEnv) (prompt outdir : String) (pre : Option String)
    (p : String) (total : Nat) :
    ∀ (i : Nat) (paths : List String), p ∈ paths →
      AEvent.analyzeCall p prompt ∈
        (batch_analyze_from env prompt outdir pre true total i paths).1 := by
  intro i paths
  induction paths generalizing i with
  | nil => intro h; cases h
  | cons q rest ih =>
      intro hp
      simp only [batch_analyze_from, List.mem_append]
      rcases List.mem_cons.mp hp with hq | hrest
      · exact Or.inl (hq ▸ analyze_one_force_calls env prompt outdir pre i total q)
      · exact Or.inr (ih (i + 1) hrest)

theorem batch_skip_output (env : AEnv) (prompt outdir : String) (pre : Option String)
    (p : String) (hex : env.jsonExists (jsonPathFor outdir p) = true)
    (total : Nat) :
    ∀ (i : Nat) (paths : List String), p ∈ paths →
      jsonPathFor outdir p ∈
        (batch_analyze_from env prompt outdir pre false total i paths).2 := by
  intro i paths
  induction paths generalizing i with
  | nil => intro h; cases h
  | cons q rest ih =>
      intro hp
      rcases List.mem_cons.mp hp with hq | hrest
      · subst hq
        simp only [batch_analyze_from]
        rw [analyze_one_skip_out env prompt outdir pre i total p hex]
        exact List.mem_cons_self _ _
      · simp only [batch_analyze_from]
        cases hout : (analyze_one env prompt outdir pre false i total q).2 with
        | some j => exact List.mem_cons_of_mem j (ih (i + 1) hrest)
        | none => exact ih (i + 1) hrest

theorem batch_skip_publish (env : AEnv) (prompt outdir : String) (pre : Option String)
    (p : String) (d : ArtJson)
    (hex : env.jsonExists (jsonPathFor outdir p) = true)
    (htr : pyTruthyOptStr pre = true)
    (hread : env.readJson (jsonPathFor outdir p) = .ok d)
    (total : Nat) :
    ∀ (i : Nat) (paths : List String), p ∈ paths →
      ∃ d2, AEvent.uploadJsonCall (build_remote_key pre (pyBasename (jsonPathFor outdir p))) d2
          ∈ (batch_analyze_from env prompt outdir pre false total i paths).1 ∧
        (pyFalsyField d.image_cos = false → d2 = d) ∧
        (pyFalsyField d.image_cos = true →
          d2 = { d with image_cos := build_remote_key pre (pyBasename p) } ∧
          AEvent.writeJson (jsonPathFor outdir p) d2
            ∈ (batch_analyze_from env prompt outdir pre false total i paths).1) := by
  intro i paths
  induction paths generalizing i with
  | nil => intro h; cases h
  | cons q rest ih =>
      intro hp
      rcases List.mem_cons.mp hp with hq | hrest
      · subst hq
        obtain ⟨d2, hmem, hkeep, hbackfill⟩ :=
          analyze_one_skip_publish env prompt outdir pre i total p d hex htr hread
        refine ⟨d2, ?_, hkeep, ?_⟩
        · simp only [batch_analyze_from, List.mem_append]
          exact Or.inl hmem
        · intro hbf
          obtain ⟨hd2, hw⟩ := hbackfill hbf
          refine ⟨hd2, ?_⟩
          simp only [batch_analyze_from, List.mem_append]
          exact Or.inl hw
      · obtain ⟨d2, hmem, hkeep, hbackfill⟩ := ih (i + 1) hrest
        refine ⟨d2, ?_, hkeep, ?_⟩
        · simp only [batch_analyze_from, List.mem_append]
          exact Or.inr hmem
        · intro hbf
          obtain ⟨hd2, hw⟩ := hbackfill hbf
          refine ⟨hd2, ?_⟩
          simp only [batch_analyze_from, List.mem_append]
          exact Or.inr hw

/-- An environment in which every artifact path already exists and reads
back with a populated cross-reference field. -/
def aenvExisting : AEnv :=
  { jsonExists := fun _ => true,
    readJson := fun _ => .ok { image_cos := some "k", payload := "x" },
    analyze := fun _ => .ok { image_cos := none, payload := "y" } }

/-- C7 counterexample: with `forceReanalyze = false`, a pre-existing
artifact and no configured publish target (the publish argument is `None`),
the item is skipped and its path reused, but nothing is re-published to
the sink and nothing is backfilled — the run's full event list is just the
two progress callbacks.  The claim's unconditional "re-published to the
sink" part is therefore false. -/
theorem c7_counterexample :
    (batch_analyze_images aenvExisting ["img.png"] "pr" "./cache/egg_u" none false).1 =
      [.progressCb 1 1 "分析中: img.png", .progressCb 1 1 "跳过已分析: img.png"] ∧
    (batch_analyze_images aenvExisting ["img.png"] "pr" "./cache/egg_u" none false).2 =
      ["./cache/egg_u/img.json"] := by
  constructor
  · rfl
  · rfl

/-- C7 amended: during stage 2, for every input item whose per-item
artifact already exists: with `forceReanalyze = false` the per-item
analysis operation is never invoked for that item, the existing artifact
path is reused in the stage output, and — when a non-empty publish prefix
is configured and the artifact is readable — its missing cross-reference
field is backfilled if absent and the artifact is re-published to the
sink; with `forceReanalyze = true` the per-item analysis operation is
invoked for the item regardless of the existing artifact. -/
theorem c7_amended_skip_logic (env : AEnv) (paths : List String)
    (prompt outdir : String) (pre : Option String) (p : String)
    (hp : p ∈ paths) :
    (env.jsonExists (jsonPathFor outdir p) = true →
      AEvent.analyzeCall p prompt ∉
        (batch_analyze_images env paths prompt outdir pre false).1 ∧
      jsonPathFor outdir p ∈ (batch_analyze_images env paths prompt outdir pre false).2 ∧
      (∀ d, pyTruthyOptStr pre = true →
        env.readJson (jsonPathFor outdir p) = .ok d →
        ∃ d2, AEvent.uploadJsonCall
            (build_remote_key pre (pyBasename (jsonPathFor outdir p))) d2
            ∈ (batch_analyze_images env paths prompt outdir pre false).1 ∧
          (pyFalsyField d.image_cos = false → d2 = d) ∧
          (pyFalsyField d.image_cos = true →
            d2 = { d with image_cos := build_remote_key pre (pyBasename p) } ∧
            AEvent.writeJson (jsonPathFor outdir p) d2
              ∈ (batch_analyze_images env paths prompt outdir pre false).1))) ∧
    AEvent.analyzeCall p prompt ∈
      (batch_analyze_images env paths prompt outdir pre true).1 := by
  constructor
  · intro hex
    refine ⟨?_, ?_, ?_⟩
    · exact batch_no_analyzeCall env prompt outdir pre p hex paths.length 1 paths
    · exact batch_skip_output env prompt outdir pre p hex paths.length 1 paths hp
    · intro d htr hread
      exact batch_skip_publish env prompt outdir pre p d hex htr hread paths.length 1 paths hp
  · exact batch_force_analyzeCall env prompt outdir pre p paths.length 1 paths hp

/-- Witness for C7 at a concrete one-item batch with a configured publish
prefix: the call list of the skip run contains no analysis invocation but
does contain the re-publish, and the forced run invokes the analysis. -/
theorem c7_amended_skip_logic_witness :
    (AEvent.analyzeCall "img.png" "pr" ∉
      (batch_analyze_images aenvExisting ["img.png"] "pr" "./cache/egg_u"
        (some "egg/u") false).1) ∧
    AEvent.analyzeCall "img.png" "pr" ∈
      (batch_analyze_images aenvExisting ["img.png"] "pr" "./cache/egg_u"
        (some "egg/u") true).1 := by
  have h := c7_amended_skip_logic aenvExisting ["img.png"] "pr" "./cache/egg_u"
    (some "egg/u") "img.png" (List.mem_cons_self _ _)
  exact ⟨(h.1 rfl).1, h.2⟩

/-! ### Runner infrastructure lemmas (used by C2 amended, C3, C4) -/

theorem applyUpdates_append (io : Option PyErr) (now tid : String) (a b : List UpdArgs) :
    ∀ reg : Registry, applyUpdates reg io now tid (a ++ b) =
      applyUpdates (applyUpdates reg io now tid a) io now tid b := by
  induction a with
  | nil => intro reg; rfl
  | cons u rest ih =>
      intro reg
      rw [List.cons_append, applyUpdates, applyUpdates, ih]

theorem update_task_preserves_presence (reg : Registry) (io : Option PyErr)
    (now tid id2 : String) (u : UpdArgs)
    (h : (findTask reg id2).isSome = true) :
    (findTask (update_task reg io now tid u).1 id2).isSome = true := by
  unfold update_task
  cases hf : findTask reg tid with
  | none => exact h
  | some t => exact findTask_isSome_setTask reg tid id2 _ h

theorem applyUpdates_preserves_presence (io : Option PyErr) (now tid id2 : String)
    (upds : List UpdArgs) :
    ∀ reg : Registry, (findTask reg id2).isSome = true →
      (findTask (applyUpdates reg io now tid upds) id2).isSome = true := by
  induction upds with
  | nil => intro reg h; exact h
  | cons u rest ih =>
      intro reg h
      rw [applyUpdates]
      exact ih _ (update_task_preserves_presence reg io now tid id2 u h)

theorem update_task_failed_fields (reg : Registry) (io : Option PyErr) (now tid : String)
    (e : PyErr) (t0 : Task) (h : findTask reg tid = some t0) :
    ∃ t, findTask (update_task reg io now tid (updTaskFailed e)).1 tid = some t ∧
      t.status = TaskStatus.failed ∧ t.message = "任务失败" ∧
      t.error = some e.describe := by
  unfold update_task updTaskFailed
  rw [h]
  refine ⟨_, findTask_setTask_self _ _ _, ?_, ?_, ?_⟩ <;> rfl

theorem update_task_sizeguard_fields (reg : Registry) (io : Option PyErr) (now tid : String)
    (n : Nat) (t0 : Task) (h : findTask reg tid = some t0) :
    ∃ t, findTask (update_task reg io now tid (updSizeGuardFail n)).1 tid = some t ∧
      t.status = TaskStatus.failed ∧ t.progress = 0 ∧
      t.message = "图片数量超过限制: " ++ toString n ++ " > 30" ∧
      t.error = some "图片数量超过限制(30)" := by
  unfold update_task updSizeGuardFail
  rw [h]
  refine ⟨_, findTask_setTask_self _ _ _, ?_, ?_, ?_, ?_⟩ <;> rfl

/-- The ordering of statuses along the pipeline; `FAILED` sits above every
pipeline state because any non-terminal state may jump to it. -/
def statusRank : TaskStatus → Nat
  | .pending => 0
  | .downloading => 1
  | .analyzing => 2
  | .merging => 3
  | .completed => 4
  | .failed => 5

/-- One admissible consecutive pair in a Runner-issued status sequence:
the earlier status is non-terminal and the sequence moves forward (or
jumps to `FAILED`, which ranks above everything). -/
def runnerStepOK (a b : TaskStatus) : Prop :=
  (a ≠ .completed ∧ a ≠ .failed) ∧ statusRank a ≤ statusRank b

/-- The sequence of statuses carried by a sequence of `update_task`
argument sets (progress-only updates carry none). -/
def statusTrace (upds : List UpdArgs) : List TaskStatus :=
  upds.filterMap UpdArgs.status

theorem statusTrace_append (a b : List UpdArgs) :
    statusTrace (a ++ b) = statusTrace a ++ statusTrace b :=
  List.filterMap_append a b UpdArgs.status

theorem filterMap_const_none {α β : Type} (l : List α) :
    l.filterMap (fun _ => (none : Option β)) = [] := by
  induction l with
  | nil => rfl
  | cons a t ih => simp [List.filterMap_cons, ih]

theorem statusTrace_stage1 (env : PEnv) (cp : String) :
    statusTrace (stage1 env cp).1 = [.downloading] := by
  unfold stage1
  cases hc : check_cache_exists env.fs env.cache_root cp
  · cases hdi : env.downloaderInit with
    | some e => simp [statusTrace, updStartDownload]
    | none =>
        cases hdr : env.downloadResult with
        | error e =>
            simp [statusTrace, updStartDownload, updDownloadProgress, List.filterMap_cons,
              List.filterMap_map, filterMap_const_none]
        | ok pair =>
            obtain ⟨png, js⟩ := pair
            cases hemp : png.isEmpty <;>
              simp [hemp, statusTrace, updStartDownload, updDownloadProgress,
                List.filterMap_cons, List.filterMap_map, filterMap_const_none]
  · simp [hc, statusTrace, updUsingCache]

/-- Equation lemma: a found task runs the body; a normal exit applies the
logged updates. -/
theorem process_task_ok_eq (env : PEnv) (reg : Registry) (tid : String) (task : Task)
    (upds : List UpdArgs) (calls : List ECall)
    (hf : findTask reg tid = some task)
    (hb : bodyTrace env task tid = (upds, calls, .ok ())) :
    process_task env reg tid =
      { registry := applyUpdates reg env.saveErr env.now tid upds,
        updates := upds, calls := calls, bodyErr := none } := by
  unfold process_task
  rw [hf]
  simp only [hb]

/-- Equation lemma: a found task runs the body; an exceptional exit
appends the top-level-except FAILED update. -/
theorem process_task_err_eq (env : PEnv) (reg : Registry) (tid : String) (task : Task)
    (upds : List UpdArgs) (calls : List ECall) (e : PyErr)
    (hf : findTask reg tid = some task)
    (hb : bodyTrace env task tid = (upds, calls, .error e)) :
    process_task env reg tid =
      { registry := applyUpdates reg env.saveErr env.now tid (upds ++ [updTaskFailed e]),
        updates := upds ++ [updTaskFailed e], calls := calls, bodyErr := some e } := by
  unfold process_task
  rw [hf]
  simp only [hb]

/-- Every `process_task` run issues one of three status sequences: nothing
(unknown id), `DOWNLOADING, FAILED`, or `DOWNLOADING, ANALYZING, FAILED`. -/
theorem process_statusTrace_cases (env : PEnv) (reg : Registry) (tid : String) :
    statusTrace (process_task env reg tid).updates = [] ∨
    statusTrace (process_task env reg tid).updates = [.downloading, .failed] ∨
    statusTrace (process_task env reg tid).updates = [.downloading, .analyzing, .failed] := by
  cases hf : findTask reg tid with
  | none =>
      left
      unfold process_task
      rw [hf]
      rfl
  | some task =>
      have hs1 := statusTrace_stage1 env task.cos_path
      rcases hst : stage1 env task.cos_path with ⟨u1, c1, r1⟩
      rw [hst] at hs1
      cases r1 with
      | error e =>
          have hb : bodyTrace env task tid = (u1, c1, .error e) := by
            simp [bodyTrace, hst]
          rw [process_task_err_eq env reg tid task u1 c1 e hf hb]
          right; left
          rw [statusTrace_append, hs1]
          rfl
      | ok png =>
          cases hg : (!png.isEmpty && decide (png.length > 30)) with
          | true =>
              have hb : bodyTrace env task tid =
                  (u1 ++ [updSizeGuardFail png.length], c1, .ok ()) := by
                simp [bodyTrace, hst, hg]
              rw [process_task_ok_eq env reg tid task _ c1 hf hb]
              right; left
              rw [statusTrace_append, hs1]
              rfl
          | false =>
              cases hai : env.analyzerInit with
              | some e =>
                  have hb : bodyTrace env task tid =
                      (u1 ++ [updAnalyzing], c1, .error e) := by
                    simp [bodyTrace, hst, hg, hai]
                  rw [process_task_err_eq env reg tid task _ c1 e hf hb]
                  right; right
                  rw [statusTrace_append, statusTrace_append, hs1]
                  rfl
              | none =>
                  have hb : bodyTrace env task tid =
                      (u1 ++ [updAnalyzing], c1,
                        .error (.attributeError
                          "Task object has no attribute force_reanalyze")) := by
                    simp [bodyTrace, hst, hg, hai, task_force_reanalyze]
                  rw [process_task_err_eq env reg tid task _ c1 _ hf hb]
                  right; right
                  rw [statusTrace_append, statusTrace_append, hs1]
                  rfl

theorem runnerStepOK_DF : runnerStepOK .downloading .failed := by
  unfold runnerStepOK
  refine ⟨⟨?_, ?_⟩, ?_⟩ <;> decide

theorem runnerStepOK_DA : runnerStepOK .downloading .analyzing := by
  unfold runnerStepOK
  refine ⟨⟨?_, ?_⟩, ?_⟩ <;> decide

theorem runnerStepOK_AF : runnerStepOK .analyzing .failed := by
  unfold runnerStepOK
  refine ⟨⟨?_, ?_⟩, ?_⟩ <;> decide

/-- C2 amended: the status sequence issued by any `process_task` run is
monotone along the pipeline order, never skips backwards, and never issues
a further status after one that set `COMPLETED` or `FAILED`.  (The
Registry itself enforces nothing: see the counterexample.) -/
theorem c2_amended_runner_monotone (env : PEnv) (reg : Registry) (tid : String) :
    List.Chain' runnerStepOK (statusTrace (process_task env reg tid).updates) := by
  rcases process_statusTrace_cases env reg tid with h | h | h <;> rw [h]
  · exact List.chain'_nil
  · exact List.chain'_cons.mpr ⟨runnerStepOK_DF, List.chain'_singleton _⟩
  · exact List.chain'_cons.mpr ⟨runnerStepOK_DA,
      List.chain'_cons.mpr ⟨runnerStepOK_AF, List.chain'_singleton _⟩⟩

/-! ### Failure containment (C3) and the size guard (C4) -/

theorem applyUpdates_singleton (reg : Registry) (io : Option PyErr) (now tid : String)
    (u : UpdArgs) :
    applyUpdates reg io now tid [u] = (update_task reg io now tid u).1 := rfl

/-- A body run that exits normally did so through the size-guard early
return: its update list ends with the size-guard FAILED update.  (The
`COMPLETED` exit exists syntactically but is unreachable: the body always
raises at `task.force_reanalyze` before stage 2 can run.) -/
theorem bodyTrace_ok_shape (env : PEnv) (task : Task) (tid : String)
    (upds : List UpdArgs) (calls : List ECall)
    (hb : bodyTrace env task tid = (upds, calls, .ok ())) :
    ∃ pre n, upds = pre ++ [updSizeGuardFail n] := by
  rcases hst : stage1 env task.cos_path with ⟨u1, c1, r1⟩
  cases r1 with
  | error e =>
      have hbt : bodyTrace env task tid = (u1, c1, .error e) := by
        simp [bodyTrace, hst]
      rw [hbt] at hb
      have h3 := congrArg (fun p => p.2.2) hb
      simp at h3
  | ok png =>
      cases hg : (!png.isEmpty && decide (png.length > 30)) with
      | true =>
          have hbt : bodyTrace env task tid =
              (u1 ++ [updSizeGuardFail png.length], c1, .ok ()) := by
            simp [bodyTrace, hst, hg]
          rw [hbt] at hb
          have h1 := congrArg (fun p => p.1) hb
          simp at h1
          exact ⟨u1, png.length, h1.symm⟩
      | false =>
          cases hai : env.analyzerInit with
          | some e =>
              have hbt : bodyTrace env task tid = (u1 ++ [updAnalyzing], c1, .error e) := by
                simp [bodyTrace, hst, hg, hai]
              rw [hbt] at hb
              have h3 := congrArg (fun p => p.2.2) hb
              simp at h3
          | none =>
              have hbt : bodyTrace env task tid =
                  (u1 ++ [updAnalyzing], c1,
                    .error (.attributeError "Task object has no attribute force_reanalyze")) := by
                simp [bodyTrace, hst, hg, hai, task_force_reanalyze]
              rw [hbt] at hb
              have h3 := congrArg (fun p => p.2.2) hb
              simp at h3

/-- C3: for a task id present in the registry, any exception raised inside
the pipeline body is caught by the top-level handler of `process_task`
(which is a total function: nothing propagates) and turned into an update
to `FAILED` with message `任务失败` ("task failed") and `error` set to the
exception's description; and in every run — exceptional or not — the task
ends in `COMPLETED` or `FAILED`. -/
theorem c3_exception_containment (env : PEnv) (reg : Registry) (tid : String) (task : Task)
    (h : findTask reg tid = some task) :
    (∀ e, (process_task env reg tid).bodyErr = some e →
      ∃ t, findTask (process_task env reg tid).registry tid = some t ∧
        t.status = TaskStatus.failed ∧ t.message = "任务失败" ∧
        t.error = some e.describe) ∧
    (∃ t, findTask (process_task env reg tid).registry tid = some t ∧
      (t.status = TaskStatus.completed ∨ t.status = TaskStatus.failed)) := by
  rcases hb : bodyTrace env task tid with ⟨upds, calls, res⟩
  cases res with
  | error e =>
      rw [process_task_err_eq env reg tid task upds calls e h hb]
      have hpres : (findTask (applyUpdates reg env.saveErr env.now tid upds) tid).isSome
          = true :=
        applyUpdates_preserves_presence env.saveErr env.now tid tid upds reg
          (by rw [h]; rfl)
      obtain ⟨t0, ht0⟩ := Option.isSome_iff_exists.mp hpres
      obtain ⟨t, hfind, hstat, hmsg, herr⟩ :=
        update_task_failed_fields _ env.saveErr env.now tid e t0 ht0
      constructor
      · intro e' he'
        have hee : e = e' := by simpa using he'
        subst hee
        refine ⟨t, ?_, hstat, hmsg, herr⟩
        rw [applyUpdates_append, applyUpdates_singleton]
        exact hfind
      · refine ⟨t, ?_, Or.inr hstat⟩
        rw [applyUpdates_append, applyUpdates_singleton]
        exact hfind
  | ok u =>
      cases u
      rw [process_task_ok_eq env reg tid task upds calls h hb]
      constructor
      · intro e' he'
        simp at he'
      · obtain ⟨pre, n, hupds⟩ := bodyTrace_ok_shape env task tid upds calls hb
        subst hupds
        have hpres : (findTask (applyUpdates reg env.saveErr env.now tid pre) tid).isSome
            = true :=
          applyUpdates_preserves_presence env.saveErr env.now tid tid pre reg
            (by rw [h]; rfl)
        obtain ⟨t0, ht0⟩ := Option.isSome_iff_exists.mp hpres
        obtain ⟨t, hfind, hstat, -, -, -⟩ :=
          update_task_sizeguard_fields _ env.saveErr env.now tid n t0 ht0
        refine ⟨t, ?_, Or.inr hstat⟩
        rw [applyUpdates_append, applyUpdates_singleton]
        exact hfind

/-- The task stored for the concrete runner witnesses. -/
def taskW : Task := Task.init "t1" "egg/u" "pr" "t0"

/-- A one-task registry for the concrete runner witnesses. -/
def regW : Registry := [("t1", taskW)]

/-- A run whose stage-1 download raises. -/
def envW3 : PEnv :=
  { fs := fun _ => none, cache_root := "./cache", now := "t1", saveErr := none,
    downloaderInit := none, downloadEvents := [],
    downloadResult := .error (.valueError "connection failed"),
    analyzerInit := none, batchResult := [],
    mergeResult := .error (.valueError "unused") }

/-- Witness for C3 on a concrete failing download. -/
theorem c3_exception_containment_witness :
    ∃ t, findTask (process_task envW3 regW "t1").registry "t1" = some t ∧
      (t.status = TaskStatus.completed ∨ t.status = TaskStatus.failed) :=
  (c3_exception_containment envW3 regW "t1" taskW rfl).2

/-- Stage-2/3 collaborator invocations, as opposed to the stage-1 download. -/
def isStage23Call : ECall → Bool
  | .downloadFiles _ _ => false
  | .batchAnalyze _ _ _ _ _ => true
  | .mergeAnalyze _ _ _ _ => true

theorem stage1_calls_no_stage23 (env : PEnv) (cp : String) :
    ∀ c ∈ (stage1 env cp).2.1, isStage23Call c = false := by
  unfold stage1
  cases hc : check_cache_exists env.fs env.cache_root cp
  · cases hdi : env.downloaderInit with
    | some e =>
        intro c hcm
        simp at hcm
    | none =>
        cases hdr : env.downloadResult with
        | error e =>
            intro c hcm
            simp at hcm
            rw [hcm]
            rfl
        | ok pair =>
            obtain ⟨png, js⟩ := pair
            cases hemp : png.isEmpty <;>
              · intro c hcm
                simp [hemp] at hcm
                rw [hcm]
                rfl
  · intro c hcm
    simp [hc] at hcm

/-- C4: whenever stage 1 produces more than 30 input files — from cache or
download alike — the task is set to `FAILED` with the explicit progress
reset to 0 and message/error naming the exceeded limit, and the run makes
no stage-2 or stage-3 collaborator call. -/
theorem c4_size_guard (env : PEnv) (reg : Registry) (tid : String) (task : Task)
    (files : List String)
    (h : findTask reg tid = some task)
    (hs : (stage1 env task.cos_path).2.2 = Except.ok files)
    (hn : files.length > 30) :
    (∃ t, findTask (process_task env reg tid).registry tid = some t ∧
      t.status = TaskStatus.failed ∧ t.progress = 0 ∧
      t.message = "图片数量超过限制: " ++ toString files.length ++ " > 30" ∧
      t.error = some "图片数量超过限制(30)") ∧
    (∀ c ∈ (process_task env reg tid).calls, isStage23Call c = false) := by
  rcases hst : stage1 env task.cos_path with ⟨u1, c1, r1⟩
  rw [hst] at hs
  simp at hs
  subst hs
  have hcond : (!files.isEmpty && decide (files.length > 30)) = true := by
    cases files with
    | nil => simp at hn
    | cons a rest =>
        simp only [List.isEmpty_cons, Bool.not_false, Bool.true_and, decide_eq_true_eq]
        simpa using hn
  have hb : bodyTrace env task tid =
      (u1 ++ [updSizeGuardFail files.length], c1, .ok ()) := by
    simp [bodyTrace, hst, hcond]
  rw [process_task_ok_eq env reg tid task _ c1 h hb]
  constructor
  · have hpres : (findTask (applyUpdates reg env.saveErr env.now tid u1) tid).isSome
        = true :=
      applyUpdates_preserves_presence env.saveErr env.now tid tid u1 reg
        (by rw [h]; rfl)
    obtain ⟨t0, ht0⟩ := Option.isSome_iff_exists.mp hpres
    obtain ⟨t, hfind, hstat, hprog, hmsg, herr⟩ :=
      update_task_sizeguard_fields _ env.saveErr env.now tid files.length t0 ht0
    refine ⟨t, ?_, hstat, hprog, hmsg, herr⟩
    rw [applyUpdates_append, applyUpdates_singleton]
    exact hfind
  · intro c hcm
    have := stage1_calls_no_stage23 env task.cos_path
    rw [hst] at this
    exact this c hcm

/-- Thirty-one downloaded input files. -/
def png31 : List String := (List.range 31).map (fun i => "f" ++ toString i ++ ".png")

/-- A run whose stage-1 download yields 31 primary files. -/
def envW4 : PEnv :=
  { fs := fun _ => none, cache_root := "./cache", now := "t1", saveErr := none,
    downloaderInit := none, downloadEvents := [],
    downloadResult := .ok (png31, []),
    analyzerInit := none, batchResult := [],
    mergeResult := .error (.valueError "unused") }

/-- Witness for C4 on a concrete 31-file download. -/
theorem c4_size_guard_witness :
    (∃ t, findTask (process_task envW4 regW "t1").registry "t1" = some t ∧
      t.status = TaskStatus.failed ∧ t.progress = 0 ∧
      t.message = "图片数量超过限制: " ++ toString png31.length ++ " > 30" ∧
      t.error = some "图片数量超过限制(30)") ∧
    (∀ c ∈ (process_task envW4 regW "t1").calls, isStage23Call c = false) :=
  c4_size_guard envW4 regW "t1" taskW png31 rfl rfl (by decide)

end TaskCore
